import Mathlib

/-!
# Verification of the GenAIMCP chat client

Shallow embedding of the repository's three source files:

* `src/mcpserver/my_server.py` — a FastMCP tool server registering one tool,
  `multiply`.
* `src/client.py` — the chat client: tool discovery/bridging
  (`get_openai_compatible_tools`) and the conversation loop (`main`).
* `src/chat.py` — a standalone scripted completion call (no claims target it).

The conversation loop's externally visible behaviour is modelled as a trace of
`Event`s produced while processing one line of user input.  The two external
services (the OpenAI-compatible model endpoint and the FastMCP tool server)
are oracles: their responses — the model's reply or transport failure, and the
outcome of each tool call — are passed in as explicit arguments, and the
embedding records exactly the history mutations (`append` / `pop`) and network
invocations (`modelCall` / `rpcCall`) that `client.py` performs in response.
-/

/-- A JSON-like value, standing in for the Python dictionaries used for
tool parameter schemas (`tool.inputSchema` in `client.py`). -/
inductive Json where
  | null : Json
  | bool (b : Bool) : Json
  | num (n : Int) : Json
  | str (s : String) : Json
  | arr (xs : List Json) : Json
  | obj (fields : List (String × Json)) : Json

/-- The role field of a chat message. -/
inductive Role where
  | user
  | assistant
  | tool
deriving DecidableEq, Repr

/-- A model-emitted tool-call request (`tool_call` in `client.py`):
an opaque id, the tool name, and the serialized argument payload
(`tool_call.function.arguments`, a string to be parsed by `json.loads`). -/
structure ToolCall where
  id : String
  name : String
  arguments : String
deriving DecidableEq, Repr

/-- One entry of `chat_history` in `client.py`.  Optional fields default to
absent, matching the dictionaries the source constructs:
`{"role": ..., "content": ...}` for user and plain assistant messages,
`{"tool_call_id": ..., "role": "tool", "name": ..., "content": ...}` for
tool results; an assistant message returned by the model may additionally
carry `tool_calls`. -/
structure Message where
  role : Role
  content : String
  tool_call_id : Option String := none
  name : Option String := none
  tool_calls : List ToolCall := []
deriving DecidableEq, Repr

/-- `{"role": "user", "content": user_message}` (client.py line 74). -/
def userMsg (s : String) : Message := { role := .user, content := s }

/-- The tool-result entry appended at client.py lines 112-119:
`{"tool_call_id": tool_call.id, "role": "tool", "name": tool_name,
"content": str(tool_output)}`. -/
def toolResultMsg (tc : ToolCall) (output : String) : Message :=
  { role := .tool, content := output,
    tool_call_id := some tc.id, name := some tc.name }

/-- The fixed assistant error message appended on `json.JSONDecodeError`
(client.py line 132). -/
def parseErrorMsg : Message :=
  { role := .assistant,
    content := "I encountered an error processing the tool arguments." }

/-- The assistant error message appended on a tool-execution (or follow-up
model call) exception `e` (client.py line 136). -/
def toolErrorMsg (e : String) : Message :=
  { role := .assistant,
    content := "I encountered an error while trying to use a tool: " ++ e }

/-- One OpenAI tool descriptor's `function` field (client.py lines 43-47). -/
structure FunctionDef where
  name : String
  description : String
  parameters : Json

/-- One element of the list built by `get_openai_compatible_tools`
(client.py lines 41-48). -/
structure ChatCompletionToolParam where
  type : String
  function : FunctionDef

/-- A tool description returned by `mcp_client.list_tools()`
(a FastMCP `ToolSpec`: name, description, input schema). -/
structure ToolSpec where
  name : String
  description : String
  inputSchema : Json

/-- `get_openai_compatible_tools` (client.py lines 28-51): the for-loop
appending one descriptor per fetched tool. -/
def get_openai_compatible_tools (fastmcp_tools : List ToolSpec) :
    List ChatCompletionToolParam :=
  fastmcp_tools.foldl
    (fun openai_tools tool =>
      openai_tools ++
        [{ type := "function",
           function :=
             { name := tool.name,
               description := tool.description,
               parameters := tool.inputSchema } }])
    []

/-- `multiply` (my_server.py lines 5-7): the one registered tool. -/
def multiply (a b : Int) : Int := a * b

/-- An observable action of one pass through the conversation loop's body:
a history mutation (`chat_history.append` / `chat_history.pop`), a model
invocation (`openai_client.chat.completions.create`, recording the `tools`
argument), or a tool RPC (`mcp_client.call_tool`, recording the call's id
and tool name). -/
inductive Event where
  | append (m : Message)
  | pop
  | modelCall (tools : Option (List ChatCompletionToolParam))
  | rpcCall (id : String) (toolName : String)

/-- Replay one event's effect on the history list; network events leave the
history unchanged.  `pop` removes the last element, as Python's `list.pop()`
with no index does. -/
def applyEvent (h : List Message) : Event → List Message
  | .append m => h ++ [m]
  | .pop => h.dropLast
  | .modelCall _ => h
  | .rpcCall _ _ => h

/-- Replay a trace of events on an initial history. -/
def applyEvents (h : List Message) (evs : List Event) : List Message :=
  evs.foldl applyEvent h

/-- Oracle for the follow-up model call made after a successful tool RPC
(client.py lines 122-125): either it returns a final assistant message, or
it raises (caught by the generic `except Exception` at line 133). -/
inductive FollowUp where
  | ok (msg : Message)
  | err (e : String)

/-- Oracle for the handling of one tool call (the body of the `for` loop,
client.py lines 100-136): `json.loads` fails; or the RPC `call_tool` raises
with description `e`; or the RPC succeeds with output whose string form is
`output`, after which the follow-up model call runs. -/
inductive CallOutcome where
  | parseError
  | rpcError (e : String)
  | rpcOk (output : String) (followUp : FollowUp)

/-- One iteration of `for tool_call in assistant_message.tool_calls`
(client.py lines 94-136), given the assistant message `am` whose tool calls
are being dispatched, the current request `tc`, and the environment's
outcome for it:

* parse failure: `pop` then append the fixed parse-error message (129-132);
* `call_tool` raises: the RPC happened, then `pop` and append the
  tool-error message (133-136) — nothing was appended before the raise;
* `call_tool` succeeds: append `am` (111) and the tool-result message
  (112-119), then invoke the model again with no `tools` argument (122-125);
  if that raises, `pop` and append the tool-error message, otherwise append
  the final assistant message (127). -/
def dispatchCall (am : Message) (tc : ToolCall) (out : CallOutcome) :
    List Event :=
  match out with
  | .parseError => [.pop, .append parseErrorMsg]
  | .rpcError e => [.rpcCall tc.id tc.name, .pop, .append (toolErrorMsg e)]
  | .rpcOk output fu =>
      [.rpcCall tc.id tc.name, .append am, .append (toolResultMsg tc output)]
        ++ match fu with
           | .ok m => [.modelCall none, .append m]
           | .err e => [.modelCall none, .pop, .append (toolErrorMsg e)]

/-- The whole `for` loop over the batch of pending tool calls: the
iterations run in order and, the per-call `try/except` having handled any
failure, the loop always continues with the next call. -/
def dispatchBatch (am : Message) :
    List (ToolCall × CallOutcome) → List Event
  | [] => []
  | (tc, out) :: rest => dispatchCall am tc out ++ dispatchBatch am rest

/-- Python's `str.lower()`, as used in `user_message.lower()`
(client.py line 71). -/
def pyLower (s : String) : String := ⟨s.data.map Char.toLower⟩

/-- Oracle for the first model call of a turn (client.py lines 78-83):
transport failure (`except Exception`, line 84) or a reply message. -/
inductive ModelResult where
  | transportError
  | reply (msg : Message)

/-- One iteration of the `while True` loop of `main` (client.py lines
69-140), processing the input `line` with the session's bridged tool list
`tools`.  Returns whether the loop `break`s, and the trace of events:

* `line.lower() == 'exit'`: `break` before any append or model call (71-72);
* otherwise append the user message (74) and call the model, passing the
  tool list, or `None` when it is empty (78-83);
* transport failure: `pop` the user message and `continue` (84-87);
* reply with no tool calls: append the assistant message (137-140);
* reply with tool calls: dispatch every pending call in order (92-136);
  note the assistant tool-call message is NOT appended here — each
  successful call appends its own copy inside `dispatchCall`. -/
def processLine (tools : List ChatCompletionToolParam) (line : String)
    (model : ModelResult) (outcomes : List CallOutcome) :
    Bool × List Event :=
  if pyLower line = "exit" then
    (true, [])
  else
    let callTools : Option (List ChatCompletionToolParam) :=
      if tools.isEmpty then none else some tools
    let pre : List Event := [.append (userMsg line), .modelCall callTools]
    match model with
    | .transportError => (false, pre ++ [.pop])
    | .reply am =>
        match am.tool_calls with
        | [] => (false, pre ++ [.append am])
        | _ :: _ =>
            (false, pre ++ dispatchBatch am (am.tool_calls.zip outcomes))

/-- A plain assistant text message `{"role": "assistant", "content": s}`,
the shape of follow-up replies returned by the model. -/
def asstMsg (s : String) : Message := { role := .assistant, content := s }

/-- Build the outcome list for a batch in which every call succeeds:
each entry pairs a request with its tool output's string form and the
content of the follow-up assistant reply. -/
def okBatch (l : List (ToolCall × String × String)) :
    List (ToolCall × CallOutcome) :=
  l.map fun c => (c.1, .rpcOk c.2.1 (.ok (asstMsg c.2.2)))

/-- The messages an all-successful batch appends, per call: a copy of the
assistant tool-call message, the tool-result message, and the follow-up
assistant message. -/
def okBatchMsgs (am : Message) :
    List (ToolCall × String × String) → List Message
  | [] => []
  | c :: rest =>
      [am, toolResultMsg c.1 c.2.1, asstMsg c.2.2] ++ okBatchMsgs am rest

/-- How many times message `m` is appended in an event trace. -/
def countAppends (m : Message) : List Event → Nat
  | [] => 0
  | Event.append m2 :: rest =>
      (if m2 = m then 1 else 0) + countAppends m rest
  | _ :: rest => countAppends m rest

theorem applyEvents_append (h : List Message) (e1 e2 : List Event) :
    applyEvents h (e1 ++ e2) = applyEvents (applyEvents h e1) e2 :=
  List.foldl_append _ _ _ _

theorem countAppends_append (m : Message) (e1 e2 : List Event) :
    countAppends m (e1 ++ e2) = countAppends m e1 + countAppends m e2 := by
  induction e1 with
  | nil => simp [countAppends]
  | cons e rest ih =>
      cases e <;> simp [countAppends, ih] <;> omega

theorem foldl_append_singleton {α β : Type} (g : α → β) :
    ∀ (l : List α) (acc : List β),
      l.foldl (fun a t => a ++ [g t]) acc = acc ++ l.map g
  | [], acc => by simp
  | t :: ts, acc => by
      simp only [List.foldl_cons, List.map_cons]
      rw [foldl_append_singleton g ts]
      simp

theorem get_openai_compatible_tools_eq_map (ts : List ToolSpec) :
    get_openai_compatible_tools ts =
      ts.map fun tool =>
        { type := "function",
          function :=
            { name := tool.name, description := tool.description,
              parameters := tool.inputSchema } } := by
  unfold get_openai_compatible_tools
  rw [foldl_append_singleton]
  simp

/-- C8: the Tool Bridge maps each fetched ToolSpec to one descriptor, in
order, with type "function" and name/description/parameters copied through
unmodified; an empty ToolSpec list yields an empty descriptor list. -/
theorem bridge_is_orderpreserving_passthrough (ts : List ToolSpec) :
    (get_openai_compatible_tools ts).length = ts.length ∧
    (∀ i (h : i < ts.length),
      (get_openai_compatible_tools ts).get? i =
        some { type := "function",
               function :=
                 { name := (ts.get ⟨i, h⟩).name,
                   description := (ts.get ⟨i, h⟩).description,
                   parameters := (ts.get ⟨i, h⟩).inputSchema } }) ∧
    get_openai_compatible_tools [] = [] := by
  refine ⟨?_, ?_, rfl⟩
  · rw [get_openai_compatible_tools_eq_map]; simp
  · intro i h
    rw [get_openai_compatible_tools_eq_map, List.get?_map,
      List.get?_eq_get h]
    rfl

theorem bridge_is_orderpreserving_passthrough_witness :
    (get_openai_compatible_tools
        [⟨"multiply", "Multiply two integers", Json.null⟩]).get? 0 =
      some { type := "function",
             function :=
               { name := "multiply", description := "Multiply two integers",
                 parameters := Json.null } } :=
  (bridge_is_orderpreserving_passthrough
      [⟨"multiply", "Multiply two integers", Json.null⟩]).2.1 0 (by decide)

/-- The tool-call request of the C9 scenario: `multiply` with arguments
`{"a": 6, "b": 7}`. -/
def mulCall : ToolCall :=
  { id := "call_1", name := "multiply",
    arguments := "\x7b\x22a\x22: 6, \x22b\x22: 7\x7d" }

/-- The model reply of the C9 scenario: one tool call to `multiply`. -/
def mulAsst : Message :=
  { role := .assistant, content := "", tool_calls := [mulCall] }

/-- The follow-up model reply of the C9 scenario. -/
def mulFinal : Message := asstMsg "6 times 7 is 42."

/-- C9: `multiply` returns exactly the product of its two integer
arguments, and in the scenario where the model requests `multiply` with
a = 6 and b = 7, a tool-result Message whose content is the string form of
`multiply 6 7`, namely "42", is appended to the history, followed by one
final assistant Message. -/
theorem multiply_is_product_and_42_scenario :
    (∀ a b : Int, multiply a b = a * b) ∧
    applyEvents [] (processLine [] "what is 6*7?" (.reply mulAsst)
        [.rpcOk (toString (multiply 6 7)) (.ok mulFinal)]).2 =
      [userMsg "what is 6*7?", mulAsst, toolResultMsg mulCall "42",
       mulFinal] ∧
    (toolResultMsg mulCall "42").content = "42" ∧
    mulFinal.role = .assistant := by
  refine ⟨fun a b => rfl, ?_, rfl, rfl⟩
  rfl

/-- C7: one pass of the loop terminates the session iff the input line is
a case-insensitive match of the literal "exit"; on that line no event at
all happens (no append, no model call), and on any other line the user
Message is appended and the model is invoked. -/
theorem exit_sentinel_terminates_loop (tools : List ChatCompletionToolParam)
    (line : String) (model : ModelResult) (outcomes : List CallOutcome) :
    ((processLine tools line model outcomes).1 = true ↔
      pyLower line = "exit") ∧
    (pyLower line = "exit" → (processLine tools line model outcomes).2 = []) ∧
    (pyLower line ≠ "exit" →
      Event.append (userMsg line) ∈ (processLine tools line model outcomes).2 ∧
      ∃ ct, Event.modelCall ct ∈ (processLine tools line model outcomes).2) := by
  by_cases h : pyLower line = "exit"
  · simp [processLine, h]
  · have hterm : (processLine tools line model outcomes).1 = false := by
      cases model with
      | transportError => simp [processLine, if_neg h]
      | reply am =>
          rcases htc : am.tool_calls with _ | ⟨tc, rest⟩ <;>
            simp [processLine, if_neg h, htc]
    have hmem :
        Event.append (userMsg line) ∈
            (processLine tools line model outcomes).2 ∧
          Event.modelCall (if tools.isEmpty then none else some tools) ∈
            (processLine tools line model outcomes).2 := by
      cases model with
      | transportError => simp [processLine, if_neg h]
      | reply am =>
          rcases htc : am.tool_calls with _ | ⟨tc, rest⟩ <;>
            simp [processLine, if_neg h, htc]
    exact ⟨by simp [hterm, h], fun h2 => absurd h2 h,
      fun _ => ⟨hmem.1, _, hmem.2⟩⟩

theorem exit_sentinel_terminates_loop_witness :
    (processLine [] "ExIt" ModelResult.transportError []).2 = [] ∧
    Event.append (userMsg "hi") ∈
      (processLine [] "hi" ModelResult.transportError []).2 :=
  ⟨(exit_sentinel_terminates_loop [] "ExIt" .transportError []).2.1
      (by decide),
   ((exit_sentinel_terminates_loop [] "hi" .transportError []).2.2
      (by decide)).1⟩

/-- C4: when the first model call of a turn fails at the transport
boundary, the trace is exactly append-user, one model call, pop — so the
post-turn history equals the pre-turn history H, no assistant Message is
appended, and the loop continues to the next input without retrying. -/
theorem transport_failure_restores_history (H : List Message)
    (tools : List ChatCompletionToolParam) (line : String)
    (outcomes : List CallOutcome) (h : pyLower line ≠ "exit") :
    applyEvents H (processLine tools line .transportError outcomes).2 = H ∧
    (processLine tools line .transportError outcomes).1 = false ∧
    (processLine tools line .transportError outcomes).2 =
      [.append (userMsg line),
       .modelCall (if tools.isEmpty then none else some tools), .pop] := by
  refine ⟨?_, by simp [processLine, if_neg h], by simp [processLine, if_neg h]⟩
  simp [processLine, if_neg h, applyEvents, applyEvent]

theorem transport_failure_restores_history_witness :
    applyEvents [asstMsg "hello"]
      (processLine [] "hi" ModelResult.transportError []).2 =
      [asstMsg "hello"] :=
  (transport_failure_restores_history [asstMsg "hello"] [] "hi" []
    (by decide)).1

/-- C6: when the model call succeeds and the reply carries no tool calls,
the post-turn history is exactly the pre-turn history H extended by the
user Message and the one assistant Message, with nothing removed or
modified. -/
theorem plain_text_appends_exactly_one (H : List Message)
    (tools : List ChatCompletionToolParam) (line : String) (am : Message)
    (outcomes : List CallOutcome) (h1 : pyLower line ≠ "exit")
    (h2 : am.tool_calls = []) :
    applyEvents H (processLine tools line (.reply am) outcomes).2 =
      H ++ [userMsg line, am] ∧
    (processLine tools line (.reply am) outcomes).1 = false := by
  constructor
  · simp [processLine, if_neg h1, h2, applyEvents, applyEvent]
  · simp [processLine, if_neg h1, h2]

theorem plain_text_appends_exactly_one_witness :
    applyEvents [] (processLine [] "hi" (.reply (asstMsg "hello")) []).2 =
      [userMsg "hi", asstMsg "hello"] :=
  (plain_text_appends_exactly_one [] [] "hi" (asstMsg "hello") []
    (by decide) rfl).1

/-- A `multiply` call whose argument payload is not valid JSON. -/
def badCallA : ToolCall :=
  { id := "call_a", name := "multiply", arguments := "not json" }

/-- A well-formed `multiply` call with arguments a = 6, b = 7. -/
def okCallB : ToolCall :=
  { id := "call_b", name := "multiply",
    arguments := "\x7b\x22a\x22: 6, \x22b\x22: 7\x7d" }

/-- A model reply requesting a malformed call and then a well-formed one. -/
def batchBadGood : Message :=
  { role := .assistant, content := "", tool_calls := [badCallA, okCallB] }

/-- A model reply carrying only the malformed call. -/
def batchBadOnly : Message :=
  { role := .assistant, content := "", tool_calls := [badCallA] }

/-- A well-formed `multiply` call with arguments a = 2, b = 3. -/
def okCallA : ToolCall :=
  { id := "call_a", name := "multiply",
    arguments := "\x7b\x22a\x22: 2, \x22b\x22: 3\x7d" }

/-- A `multiply` call whose argument payload is not valid JSON, second in
the C1 scenario batch. -/
def badCallB : ToolCall :=
  { id := "call_b", name := "multiply", arguments := "oops" }

/-- A model reply requesting a well-formed call and then a malformed one. -/
def batchGoodBad : Message :=
  { role := .assistant, content := "", tool_calls := [okCallA, badCallB] }

/-- A well-formed `multiply` call with arguments a = 4, b = 5. -/
def okCallC : ToolCall :=
  { id := "call_c", name := "multiply",
    arguments := "\x7b\x22a\x22: 4, \x22b\x22: 5\x7d" }

/-- A model reply requesting two well-formed calls. -/
def batchGoodGood : Message :=
  { role := .assistant, content := "", tool_calls := [okCallA, okCallC] }

/-- C2 counterexample: in the batch [malformed call_a, well-formed call_b],
call_a's parse failure does not abort the batch — the RPC for call_b still
occurs in the turn's trace. -/
theorem parse_failure_does_not_abort_batch :
    Event.rpcCall "call_b" "multiply" ∈
      (processLine [] "hi" (.reply batchBadGood)
        [.parseError, .rpcOk "42" (.ok (asstMsg "It is 42."))]).2 := by
  simp [processLine, pyLower, batchBadGood, dispatchBatch, dispatchCall,
    badCallA, okCallB]

/-- C2 (amended): when parsing the argument payload of the first pending
call fails, the last history entry — the preceding user Message, since
nothing was appended after it — is removed, exactly one fixed-content
assistant error Message is appended, and no RPC invocation occurs for that
call; but the remaining pending calls are not aborted: the loop continues
and their dispatch events follow in the same trace. -/
theorem parse_failure_recovery (H : List Message)
    (tools : List ChatCompletionToolParam) (line : String) (am : Message)
    (tc : ToolCall) (rest : List ToolCall) (outcomes : List CallOutcome)
    (h1 : pyLower line ≠ "exit") (h2 : am.tool_calls = tc :: rest) :
    (processLine tools line (.reply am) (.parseError :: outcomes)).2 =
      [.append (userMsg line),
       .modelCall (if tools.isEmpty then none else some tools),
       .pop, .append parseErrorMsg] ++ dispatchBatch am (rest.zip outcomes) ∧
    applyEvents H
      [.append (userMsg line),
       .modelCall (if tools.isEmpty then none else some tools),
       .pop, .append parseErrorMsg] = H ++ [parseErrorMsg] ∧
    ∀ i n, Event.rpcCall i n ∈ dispatchCall am tc CallOutcome.parseError →
      False := by
  refine ⟨?_, ?_, ?_⟩
  · simp [processLine, if_neg h1, h2, dispatchBatch, dispatchCall]
  · simp [applyEvents, applyEvent]
  · intro i n hmem
    simp [dispatchCall] at hmem

theorem parse_failure_recovery_witness :
    applyEvents [asstMsg "prior"]
      [.append (userMsg "hi"), .modelCall none, .pop,
       .append parseErrorMsg] = [asstMsg "prior", parseErrorMsg] :=
  (parse_failure_recovery [asstMsg "prior"] [] "hi" batchBadOnly badCallA
    [] [] (by decide) rfl).2.1

/-- C1: in the batch [well-formed call_a, malformed call_b], after call_a
succeeds (appending three messages), call_b's recovery pop removes the
follow-up assistant message of call_a — not the user Message that started
the turn, which is still present in the final history. -/
theorem midbatch_recovery_pops_followup_not_user :
    applyEvents [] (processLine [] "hi" (.reply batchGoodBad)
        [.rpcOk "6" (.ok (asstMsg "2 times 3 is 6.")), .parseError]).2 =
      [userMsg "hi", batchGoodBad, toolResultMsg okCallA "6",
       parseErrorMsg] ∧
    userMsg "hi" ∈
      applyEvents [] (processLine [] "hi" (.reply batchGoodBad)
        [.rpcOk "6" (.ok (asstMsg "2 times 3 is 6.")), .parseError]).2 := by
  constructor
  · rfl
  · rw [show applyEvents [] (processLine [] "hi" (.reply batchGoodBad)
        [.rpcOk "6" (.ok (asstMsg "2 times 3 is 6.")), .parseError]).2 =
      [userMsg "hi", batchGoodBad, toolResultMsg okCallA "6",
       parseErrorMsg] from rfl]
    simp

/-- C3 counterexample: in a batch of two successful calls, the assistant's
tool-call message is appended twice (not exactly once), and the full trace
shows each append happens only after that call's RPC, not before dispatch. -/
theorem toolcall_message_appended_twice :
    countAppends batchGoodGood
      (processLine [] "hi" (.reply batchGoodGood)
        [.rpcOk "6" (.ok (asstMsg "six")),
         .rpcOk "20" (.ok (asstMsg "twenty"))]).2 = 2 ∧
    (processLine [] "hi" (.reply batchGoodGood)
        [.rpcOk "6" (.ok (asstMsg "six")),
         .rpcOk "20" (.ok (asstMsg "twenty"))]).2 =
      [.append (userMsg "hi"), .modelCall none,
       .rpcCall "call_a" "multiply", .append batchGoodGood,
       .append (toolResultMsg okCallA "6"), .modelCall none,
       .append (asstMsg "six"),
       .rpcCall "call_c" "multiply", .append batchGoodGood,
       .append (toolResultMsg okCallC "20"), .modelCall none,
       .append (asstMsg "twenty")] := by
  exact ⟨by decide, rfl⟩

theorem okBatchMsgs_cons (am : Message) (c : ToolCall × String × String)
    (l : List (ToolCall × String × String)) :
    okBatchMsgs am (c :: l) =
      [am, toolResultMsg c.1 c.2.1, asstMsg c.2.2] ++ okBatchMsgs am l :=
  rfl

theorem dispatchBatch_okBatch_cons (am : Message)
    (c : ToolCall × String × String)
    (l : List (ToolCall × String × String)) :
    dispatchBatch am (okBatch (c :: l)) =
      [.rpcCall c.1.id c.1.name, .append am,
       .append (toolResultMsg c.1 c.2.1), .modelCall none,
       .append (asstMsg c.2.2)] ++ dispatchBatch am (okBatch l) :=
  rfl

theorem dispatchBatch_okBatch_applyEvents (am : Message) :
    ∀ (l : List (ToolCall × String × String)) (H : List Message),
      applyEvents H (dispatchBatch am (okBatch l)) = H ++ okBatchMsgs am l
  | [], H => by simp [okBatch, dispatchBatch, okBatchMsgs, applyEvents]
  | c :: l, H => by
      rw [dispatchBatch_okBatch_cons, applyEvents_append,
        dispatchBatch_okBatch_applyEvents am l, okBatchMsgs_cons]
      simp [applyEvents, applyEvent]

theorem dispatchBatch_okBatch_countAppends (am : Message)
    (ham : am.tool_calls ≠ []) :
    ∀ l : List (ToolCall × String × String),
      countAppends am (dispatchBatch am (okBatch l)) = l.length
  | [] => by simp [okBatch, dispatchBatch, countAppends]
  | c :: l => by
      have h1 : toolResultMsg c.1 c.2.1 ≠ am := by
        intro he
        exact ham (he ▸ rfl)
      have h2 : asstMsg c.2.2 ≠ am := by
        intro he
        exact ham (he ▸ rfl)
      rw [dispatchBatch_okBatch_cons, countAppends_append,
        dispatchBatch_okBatch_countAppends am ham l]
      simp [countAppends, h1, h2]
      omega

theorem okBatchMsgs_length (am : Message) :
    ∀ l : List (ToolCall × String × String),
      (okBatchMsgs am l).length = 3 * l.length
  | [] => rfl
  | c :: l => by
      rw [okBatchMsgs_cons]
      simp [okBatchMsgs_length am l]
      ring

theorem okBatchMsgs_filter_tool (am : Message) (ham : am.role = .assistant) :
    ∀ l : List (ToolCall × String × String),
      (okBatchMsgs am l).filter (fun m => m.role == Role.tool) =
        l.map fun c => toolResultMsg c.1 c.2.1
  | [] => rfl
  | c :: l => by
      rw [okBatchMsgs_cons, List.filter_append,
        okBatchMsgs_filter_tool am ham l]
      simp [toolResultMsg, asstMsg, ham]

theorem okBatchMsgs_mem_followup (am : Message) :
    ∀ (l : List (ToolCall × String × String)) (c : ToolCall × String × String),
      c ∈ l → asstMsg c.2.2 ∈ okBatchMsgs am l
  | [], c, hc => by simp at hc
  | d :: l, c, hc => by
      rw [okBatchMsgs_cons]
      rcases List.mem_cons.mp hc with h | h
      · subst h
        simp
      · simp [okBatchMsgs_mem_followup am l c h]

theorem dispatchBatch_okBatch_modelCalls_none (am : Message) :
    ∀ (l : List (ToolCall × String × String))
      (t : Option (List ChatCompletionToolParam)),
      Event.modelCall t ∈ dispatchBatch am (okBatch l) → t = none
  | [], t, h => by simp [okBatch, dispatchBatch] at h
  | c :: l, t, h => by
      rw [dispatchBatch_okBatch_cons] at h
      rcases List.mem_append.mp h with h | h
      · simp at h
        exact h
      · exact dispatchBatch_okBatch_modelCalls_none am l t h

/-- C3 (amended): the assistant's tool-call message is appended once per
successfully executed call — immediately after that call's RPC event, so
never before dispatch begins — and zero times for failing calls; in an
all-successful batch of length N it therefore appears N times. -/
theorem toolcall_message_append_per_success (am : Message)
    (l : List (ToolCall × String × String)) (ham : am.tool_calls ≠ []) :
    countAppends am (dispatchBatch am (okBatch l)) = l.length ∧
    (∀ (tc : ToolCall) (o : String) (fu : FollowUp), ∃ tl,
      dispatchCall am tc (.rpcOk o fu) =
        Event.rpcCall tc.id tc.name :: Event.append am :: tl) ∧
    (∀ tc, countAppends am (dispatchCall am tc .parseError) = 0) ∧
    (∀ tc e, countAppends am (dispatchCall am tc (.rpcError e)) = 0) := by
  refine ⟨dispatchBatch_okBatch_countAppends am ham l, ?_, ?_, ?_⟩
  · intro tc o fu
    cases fu <;> exact ⟨_, rfl⟩
  · intro tc
    have h : parseErrorMsg ≠ am := fun he => ham (he ▸ rfl)
    simp [dispatchCall, countAppends, h]
  · intro tc e
    have h : toolErrorMsg e ≠ am := fun he => ham (he ▸ rfl)
    simp [dispatchCall, countAppends, h]

theorem toolcall_message_append_per_success_witness :
    countAppends batchGoodGood
      (dispatchBatch batchGoodGood (okBatch [(okCallA, "6", "six")])) = 1 :=
  (toolcall_message_append_per_success batchGoodGood [(okCallA, "6", "six")]
    (by decide)).1

/-- C5: an all-successful batch of length N appends exactly N tool-result
Messages, in the exact order the requests were received, every follow-up
assistant Message (hence at least one when the batch is nonempty), and
every follow-up model call in the batch is made with no tool capability. -/
theorem successful_batch_appends_results (H : List Message) (am : Message)
    (l : List (ToolCall × String × String)) (h0 : l ≠ [])
    (h1 : am.role = .assistant) :
    applyEvents H (dispatchBatch am (okBatch l)) = H ++ okBatchMsgs am l ∧
    (okBatchMsgs am l).filter (fun m => m.role == Role.tool) =
      l.map (fun c => toolResultMsg c.1 c.2.1) ∧
    (∃ c ∈ l, asstMsg c.2.2 ∈ okBatchMsgs am l) ∧
    (∀ t, Event.modelCall t ∈ dispatchBatch am (okBatch l) → t = none) := by
  refine ⟨dispatchBatch_okBatch_applyEvents am l H,
    okBatchMsgs_filter_tool am h1 l, ?_,
    dispatchBatch_okBatch_modelCalls_none am l⟩
  rcases l with _ | ⟨c, l⟩
  · exact absurd rfl h0
  · exact ⟨c, List.mem_cons_self c l,
      okBatchMsgs_mem_followup am (c :: l) c (List.mem_cons_self c l)⟩

theorem successful_batch_appends_results_witness :
    (okBatchMsgs batchGoodGood [(okCallA, "6", "six")]).filter
        (fun m => m.role == Role.tool) = [toolResultMsg okCallA "6"] :=
  (successful_batch_appends_results [] batchGoodGood [(okCallA, "6", "six")]
    (by decide) rfl).2.1

/-- C10: an all-successful batch of length N (N ≥ 2) appends, per call, a
duplicate copy of the assistant tool-call message, the tool-result
Message, and a follow-up assistant Message — so the history grows by 3N
entries and contains N copies of the tool-call message, rather than one
assistant tool-call entry for the whole batch. -/
theorem batch_adds_three_entries_per_call (H : List Message) (am : Message)
    (l : List (ToolCall × String × String)) (hn : 2 ≤ l.length)
    (ham : am.tool_calls ≠ []) :
    applyEvents H (dispatchBatch am (okBatch l)) = H ++ okBatchMsgs am l ∧
    (applyEvents H (dispatchBatch am (okBatch l))).length =
      H.length + 3 * l.length ∧
    countAppends am (dispatchBatch am (okBatch l)) = l.length := by
  refine ⟨dispatchBatch_okBatch_applyEvents am l H, ?_,
    dispatchBatch_okBatch_countAppends am ham l⟩
  rw [dispatchBatch_okBatch_applyEvents am l H]
  simp [okBatchMsgs_length am l]

theorem batch_adds_three_entries_per_call_witness :
    (applyEvents [] (dispatchBatch batchGoodGood
        (okBatch [(okCallA, "6", "six"), (okCallC, "20", "twenty")]))).length
      = 6 :=
  (batch_adds_three_entries_per_call [] batchGoodGood
    [(okCallA, "6", "six"), (okCallC, "20", "twenty")]
    (by decide) (by decide)).2.1
